import Mathlib

/-!
Verification of the unrealsdk excerpt: the global registry wrapper
(`unreal/wrappers/gobjects.h`), the process initialization gate and C call
surface (`unrealsdk_main.cpp`), and the BL3 layout descriptors
(`game/bl3/offsets.h`).

The registry wrapper's method bodies (gobjects.cpp) are not part of the
excerpt — only the class declaration in gobjects.h is — so those operations
are modelled from the spec (§3 "Weak reference", §4.3 "Global Registry
Wrapper"), each marked `Modelled from the spec:` in its doc comment.
The initialization gate and the C surface are translated directly from
`unrealsdk_main.cpp`, and the layout chain from `game/bl3/offsets.h`.
-/

namespace unrealsdk

/-! ## Registry data model -/

/-- A non-owning reference to a host-resident object. `id` stands for the
object's address (its identity); `internalIndex` mirrors the host-assigned
`UObject::InternalIndex`, the object's slot in the global registry. -/
structure UObjectRef where
  id : Nat
  internalIndex : Nat
deriving DecidableEq, Repr

/-- One slot of the host's global object array: the stored object reference
(`none` when the host has freed the slot) and the slot's serial/generation
number used to validate weak references. -/
structure Slot where
  object : Option UObjectRef
  serial : Nat
deriving DecidableEq, Repr

/-- Host memory, as far as the registry is concerned: a map from an address to
the current contents of the host's global object array stored there. The host
owns this and may mutate it between any two calls into the wrapper. -/
def Host : Type := Nat → List Slot

/-- The registry wrapper of gobjects.h: its only data member is `internal`,
the pointer to the host structure (`internal_type internal;`). It caches
nothing else. -/
structure GObjects where
  internal : Nat
deriving DecidableEq, Repr

/-- Modelled from the spec (gobjects.cpp is outside the excerpt): `size()`
reads the current element count fresh from the host structure on every call;
no caching. -/
def GObjects.size (h : Host) (g : GObjects) : Nat :=
  (h g.internal).length

/-- Modelled from the spec (gobjects.cpp is outside the excerpt):
`obj_at(idx)` returns the object reference stored at `idx`, and fails with an
out-of-range error when `idx >= size()`; the in-range read carries a proof
that it never goes past the host-reported bound. -/
def GObjects.obj_at (h : Host) (g : GObjects) (idx : Nat) :
    Except String (Option UObjectRef) :=
  if hlt : idx < (h g.internal).length then
    Except.ok ((h g.internal).get ⟨idx, hlt⟩).object
  else
    Except.error "GObjects index out of range"

/-- Forward iterator over the registry (gobjects.h `GObjects::Iterator`): a
pointer back to the wrapper plus the current index. -/
structure GObjects.Iterator where
  gobjects : GObjects
  idx : Nat
deriving DecidableEq, Repr

/-- Modelled from the spec (gobjects.cpp is outside the excerpt): `begin()`
yields an iterator over this registry view starting at index 0. -/
def GObjects.begin (g : GObjects) : GObjects.Iterator :=
  ⟨g, 0⟩

/-- Modelled from the spec (gobjects.cpp is outside the excerpt): `operator++`
advances the iterator to the next index. -/
def GObjects.Iterator.inc (it : GObjects.Iterator) : GObjects.Iterator :=
  ⟨it.gobjects, it.idx + 1⟩

/-- `operator++` applied `n` times. -/
def GObjects.Iterator.advance (it : GObjects.Iterator) : Nat → GObjects.Iterator
  | 0 => it
  | n + 1 => (it.advance n).inc

/-- Modelled from the spec (gobjects.cpp is outside the excerpt): `operator*`
re-reads the live slot at the iterator's index and yields the object reference
stored there (`none` past the end or in a freed slot). -/
def GObjects.Iterator.deref (h : Host) (it : GObjects.Iterator) :
    Option UObjectRef :=
  match (h it.gobjects.internal)[it.idx]? with
  | some s => s.object
  | none => none

/-- A weak object pointer (`FWeakObjectPtr`): an object index plus the serial
number the slot had when the reference was written. The index is an `Int` so
the "no object" sentinel can live outside the array's logical range. -/
structure FWeakObjectPtr where
  object_index : Int
  object_serial : Nat
deriving DecidableEq, Repr

/-- The sentinel "no object" weak-pointer encoding (index −1, serial 0). -/
def FWeakObjectPtr.noObject : FWeakObjectPtr :=
  ⟨-1, 0⟩

/-- Modelled from the spec (gobjects.cpp is outside the excerpt):
`get_weak_object` looks up the slot at the pointer's index; an index outside
the array's current logical range, a serial mismatch, or an empty slot all
yield "no object" (`none`) rather than an error. -/
def GObjects.get_weak_object (h : Host) (g : GObjects) (ptr : FWeakObjectPtr) :
    Option UObjectRef :=
  if ptr.object_index < 0 then none
  else
    match (h g.internal)[ptr.object_index.toNat]? with
    | none => none
    | some s => if s.serial = ptr.object_serial then s.object else none

/-- Modelled from the spec (gobjects.cpp is outside the excerpt):
`set_weak_object` writes the (index, serial) pair describing the object's
current slot; a null object writes the sentinel "no object" encoding. -/
def GObjects.set_weak_object (h : Host) (g : GObjects) (obj : Option UObjectRef) :
    FWeakObjectPtr :=
  match obj with
  | none => FWeakObjectPtr.noObject
  | some o =>
    match (h g.internal)[o.internalIndex]? with
    | some s => ⟨(o.internalIndex : Int), s.serial⟩
    | none => ⟨(o.internalIndex : Int), 0⟩

/-! ## Initialization gate and C call surface (unrealsdk_main.cpp)

The gate's state is the single `hook_instance` pointer; the environment of one
`init` call records the outcome of each fallible startup step and the factory.
`Hook` is the abstract `game::AbstractHook` type. -/

/-- The SDK's process-wide state: the anonymous-namespace
`std::unique_ptr<game::AbstractHook> hook_instance` of unrealsdk_main.cpp
(null before publication). -/
structure SdkState (Hook : Type) where
  hook_instance : Option Hook
deriving DecidableEq, Repr

/-- Outcome of one C++ call: a normal return or a thrown exception. -/
inductive CallResult (α : Type) where
  | ok (value : α)
  | threw (msg : String)
deriving DecidableEq, Repr

/-- The environment one `init` call runs against: whether each fallible
startup step succeeds (a `false` models that step throwing), and the supplied
`game_getter` factory. -/
structure InitEnv (Hook : Type) where
  config_ok : Bool
  logging_ok : Bool
  mh_ok : Bool
  game_getter : Unit → Hook
  hook_ok : Hook → Bool
  post_init_ok : Hook → Bool

/-- Translation of `unrealsdk::init` (unrealsdk_main.cpp lines 47–75): under
the init mutex, return false at once when `hook_instance` is already set;
otherwise run config load, logging setup, `MH_Initialize`, the factory and
`game->hook()` in order — a failure in any of them propagates as a throw with
`hook_instance` still null — then publish the hook by moving it into
`hook_instance`, run `post_init`, and return true. -/
def init {Hook : Type} (env : InitEnv Hook) (st : SdkState Hook) :
    SdkState Hook × CallResult Bool :=
  match st.hook_instance with
  | some _ => (st, CallResult.ok false)
  | none =>
    if env.config_ok = false then (st, CallResult.threw "config::load failed")
    else if env.logging_ok = false then
      (st, CallResult.threw "logging::init failed")
    else if env.mh_ok = false then
      (st, CallResult.threw "Minhook initialization failed!")
    else
      let game := env.game_getter ()
      if env.hook_ok game = false then
        (st, CallResult.threw "game->hook() failed")
      else
        let published : SdkState Hook := { hook_instance := some game }
        if env.post_init_ok game = false then
          (published, CallResult.threw "post_init failed")
        else (published, CallResult.ok true)

/-- Translation of `unrealsdk::is_initialized`: whether `hook_instance` is
non-null. -/
def is_initialized {Hook : Type} (st : SdkState Hook) : Bool :=
  st.hook_instance.isSome

/-- Translation of `unrealsdk::is_console_ready`:
`is_initialized() && hook_instance->is_console_ready()`. The short circuit is
explicit; `none` models the null dereference that would occur if the hook were
read while unpublished. `cr` is the bound hook's own `is_console_ready`. -/
def is_console_ready {Hook : Type} (cr : Hook → Bool) (st : SdkState Hook) :
    Option Bool :=
  if is_initialized st = false then some false
  else
    match st.hook_instance with
    | some hk => some (cr hk)
    | none => none

/-- Translation of `unrealsdk::internal::uconsole_output_text`: when
`hook_instance` is null the call does nothing; otherwise the text is forwarded
to the hook, modelled as appending it to the hook's output log. -/
def uconsole_output_text {Hook : Type} (st : SdkState Hook) (str : String)
    (log : List String) : List String :=
  match st.hook_instance with
  | some _ => log ++ [str]
  | none => log

/-- An `FName`: the (index, number) pair of structs/fname.h as used by the C
surface (`FName local_name{0, 0}`). -/
structure FName where
  index : Int
  number : Int
deriving DecidableEq, Repr

/-- The argument record a `construct_object` call hands to the bound hook. -/
structure ConstructArgs where
  cls : Nat
  outer : Nat
  name : FName
  flags : Nat
  template_obj : Nat
deriving DecidableEq, Repr

/-- Translation of the C-surface `unrealsdk::construct_object`
(unrealsdk_main.cpp lines 117–129): start from `local_name = {0, 0}`, copy the
pointed-to name over it only when the name pointer is non-null, then forward
everything to `hook_instance->construct_object`. The result is the argument
record the hook receives (`none` when the hook is unbound, which in C++ would
dereference a null `hook_instance`). -/
def construct_object {Hook : Type} (st : SdkState Hook) (cls outer : Nat)
    (name : Option FName) (flags : Nat) (template_obj : Nat) :
    Option ConstructArgs :=
  let local_name : FName :=
    match name with
    | none => ⟨0, 0⟩
    | some n => n
  match st.hook_instance with
  | some _ => some ⟨cls, outer, local_name, flags, template_obj⟩
  | none => none

/-! ## BL3 layout descriptors (game/bl3/offsets.h)

Each mirror class is recorded as its ordered member list (private and public
members alike, in declaration order) plus its base class; C++ single
inheritance lays a derived class out as the base layout followed by the
derived class's own members. -/

namespace game.bl3

/-- The six reflection-entity mirrors of game/bl3/offsets.h whose inheritance
chain the spec describes. -/
inductive Entity where
  | uobject
  | ufield
  | uproperty
  | ustruct
  | uclass
  | ufunction
deriving DecidableEq, Repr

/-- The base class of each mirror, read off the `: public` clauses of
offsets.h: `UField = generic::UField<UObject>` extends UObject,
`UProperty : public UField`, `UStruct : public UField`,
`UClass : public UStruct`, `UFunction : public UStruct`. -/
def Entity.base : Entity → Option Entity
  | .uobject => none
  | .ufield => some .uobject
  | .uproperty => some .ufield
  | .ustruct => some .ufield
  | .uclass => some .ustruct
  | .ufunction => some .ustruct

/-- The members each mirror declares itself, in declaration order, from
offsets.h. The `ufield` entry is modelled from the spec: `UField` is
`unreal::offsets::generic::UField<UObject>` and unreal/offsets.h is outside
the excerpt; per the spec the field level adds the linked-list "next field"
pointer. -/
def Entity.own_fields : Entity → List String
  | .uobject =>
    ["vftable", "ObjectFlags", "InternalIndex", "Class", "Name", "Outer"]
  | .ufield => ["Next"]
  | .uproperty =>
    ["ArrayDim", "ElementSize", "PropertyFlags", "RepIndex",
      "BlueprintReplicationCondition", "Offset_Internal", "RepNotifyFunc",
      "PropertyLinkNext", "NextRef", "DestructorLinkNext",
      "PostConstructLinkNext"]
  | .ustruct =>
    ["SuperField", "Children", "PropertySize", "MinAlignment", "Script",
      "PropertyLink", "RefLink", "DestructorLink", "PostConstructLink",
      "ScriptObjectReferences"]
  | .uclass =>
    ["UnknownData00", "ClassDefaultObject", "UnknownData01", "Interfaces"]
  | .ufunction =>
    ["FunctionFlags", "NumParams", "ParamsSize", "ReturnValueOffset", "RPCId",
      "RPCResponseId", "FirstPropertyToInit", "EventGraphFunction",
      "EventGraphCallOffset", "Func"]

/-- UObject's full member layout. -/
def UObject_layout : List String :=
  Entity.own_fields .uobject

/-- UField's full layout: its base UObject's layout, then its own members. -/
def UField_layout : List String :=
  UObject_layout ++ Entity.own_fields .ufield

/-- UProperty's full layout: its base UField's layout, then its own members. -/
def UProperty_layout : List String :=
  UField_layout ++ Entity.own_fields .uproperty

/-- UStruct's full layout: its base UField's layout, then its own members. -/
def UStruct_layout : List String :=
  UField_layout ++ Entity.own_fields .ustruct

/-- UClass's full layout: its base UStruct's layout, then its own members. -/
def UClass_layout : List String :=
  UStruct_layout ++ Entity.own_fields .uclass

/-- UFunction's full layout: its base UStruct's layout, then its own
members. -/
def UFunction_layout : List String :=
  UStruct_layout ++ Entity.own_fields .ufunction

/-- The full member layout of each mirror. -/
def Entity.layout : Entity → List String
  | .uobject => UObject_layout
  | .ufield => UField_layout
  | .uproperty => UProperty_layout
  | .ustruct => UStruct_layout
  | .uclass => UClass_layout
  | .ufunction => UFunction_layout

end game.bl3

end unrealsdk

/-! ## C1: obj_at bounds behaviour -/

/-- C1: for every registry view and index, `obj_at idx` fails with the
out-of-range error whenever `idx ≥ size()` — in particular at `size()` and
`size() + 1` — and for `idx < size()` returns exactly the object reference
stored at that index, read within the host-reported bound. -/
theorem obj_at_bounds (h : unrealsdk.Host) (g : unrealsdk.GObjects) :
    (∀ idx : Nat, unrealsdk.GObjects.size h g ≤ idx →
      unrealsdk.GObjects.obj_at h g idx =
        Except.error "GObjects index out of range")
    ∧ unrealsdk.GObjects.obj_at h g (unrealsdk.GObjects.size h g) =
        Except.error "GObjects index out of range"
    ∧ unrealsdk.GObjects.obj_at h g (unrealsdk.GObjects.size h g + 1) =
        Except.error "GObjects index out of range"
    ∧ ∀ (idx : Nat) (hlt : idx < unrealsdk.GObjects.size h g),
      unrealsdk.GObjects.obj_at h g idx =
        Except.ok (((h g.internal).get ⟨idx, hlt⟩).object) := by
  refine ⟨fun idx hge => ?_, ?_, ?_, fun idx hlt => ?_⟩
  · simp only [unrealsdk.GObjects.obj_at]
    rw [dif_neg]
    exact fun hlt => absurd hlt (Nat.not_lt.mpr hge)
  · simp only [unrealsdk.GObjects.obj_at, unrealsdk.GObjects.size]
    rw [dif_neg (lt_irrefl _)]
  · simp only [unrealsdk.GObjects.obj_at, unrealsdk.GObjects.size]
    rw [dif_neg]
    exact Nat.not_succ_lt_self
  · exact dif_pos hlt

/-- Witness for C1 at a concrete one-slot registry: index 1 (= size) errors
and index 0 returns the stored reference. -/
theorem obj_at_bounds_witness :
    unrealsdk.GObjects.obj_at (fun _ => [⟨some ⟨7, 0⟩, 3⟩]) ⟨0⟩ 1 =
        Except.error "GObjects index out of range"
    ∧ unrealsdk.GObjects.obj_at (fun _ => [⟨some ⟨7, 0⟩, 3⟩]) ⟨0⟩ 0 =
        Except.ok (some ⟨7, 0⟩) := by
  have h := obj_at_bounds (fun _ => [⟨some ⟨7, 0⟩, 3⟩]) ⟨0⟩
  exact ⟨h.1 1 (by decide), (h.2.2.2 0 (by decide)).trans rfl⟩

/-! ## C5: obj_at agrees with iterator dereference -/

/-- Advancing an iterator `n` times adds `n` to its index and keeps its view. -/
theorem advance_spec (it : unrealsdk.GObjects.Iterator) (n : Nat) :
    (it.advance n).idx = it.idx + n ∧ (it.advance n).gobjects = it.gobjects := by
  induction n with
  | zero => exact ⟨rfl, rfl⟩
  | succ k ih =>
    refine ⟨?_, ih.2⟩
    show (it.advance k).idx + 1 = it.idx + (k + 1)
    rw [ih.1, Nat.add_assoc]

/-- C5: for every registry view and every `i < size()`, `obj_at i` returns
exactly the reference produced by dereferencing an iterator obtained from
`begin()` and advanced `i` times. -/
theorem obj_at_eq_iterator (h : unrealsdk.Host) (g : unrealsdk.GObjects)
    (i : Nat) (hlt : i < unrealsdk.GObjects.size h g) :
    unrealsdk.GObjects.obj_at h g i =
      Except.ok (((g.begin).advance i).deref h) := by
  have hadv := advance_spec g.begin i
  have h1 : (g.begin.advance i).idx = i := by
    rw [hadv.1]; exact Nat.zero_add i
  have h2 : (g.begin.advance i).gobjects = g := hadv.2
  have hlt2 : i < (h g.internal).length := hlt
  simp only [unrealsdk.GObjects.Iterator.deref, h1, h2,
    unrealsdk.GObjects.obj_at]
  rw [dif_pos hlt2, List.getElem?_eq_getElem hlt2]
  rfl

/-- Witness for C5 at a concrete two-slot registry and index 1. -/
theorem obj_at_eq_iterator_witness :
    unrealsdk.GObjects.obj_at
        (fun _ => [⟨some ⟨7, 0⟩, 3⟩, ⟨none, 4⟩]) ⟨0⟩ 1 =
      Except.ok
        ((((⟨0⟩ : unrealsdk.GObjects).begin).advance 1).deref
          (fun _ => [⟨some ⟨7, 0⟩, 3⟩, ⟨none, 4⟩])) :=
  obj_at_eq_iterator (fun _ => [⟨some ⟨7, 0⟩, 3⟩, ⟨none, 4⟩]) ⟨0⟩ 1 (by decide)

/-! ## C7: size is read fresh, the wrapper caches nothing -/

/-- C7: `size()` returns the element count read from the live host structure at
the moment of each call — two calls under different host states return the
respective live counts, and differing live counts give differing results — and
the wrapper holds no state besides the pointer to the host structure (two
wrappers with the same pointer are the same wrapper). -/
theorem size_reads_fresh (h1 h2 : unrealsdk.Host) (g : unrealsdk.GObjects) :
    unrealsdk.GObjects.size h1 g = (h1 g.internal).length
    ∧ unrealsdk.GObjects.size h2 g = (h2 g.internal).length
    ∧ ((h1 g.internal).length ≠ (h2 g.internal).length →
        unrealsdk.GObjects.size h1 g ≠ unrealsdk.GObjects.size h2 g)
    ∧ ∀ g2 : unrealsdk.GObjects, g.internal = g2.internal → g = g2 := by
  refine ⟨rfl, rfl, fun hne => hne, fun g2 hint => ?_⟩
  cases g
  cases g2
  cases hint
  rfl

/-- Witness for C7: the host grows the array from one slot to two between the
two calls, and the sizes observed are 1 and 2 respectively. -/
theorem size_reads_fresh_witness :
    unrealsdk.GObjects.size (fun _ => [⟨none, 0⟩]) ⟨0⟩ ≠
      unrealsdk.GObjects.size (fun _ => [⟨none, 0⟩, ⟨none, 1⟩]) ⟨0⟩ :=
  (size_reads_fresh (fun _ => [⟨none, 0⟩]) (fun _ => [⟨none, 0⟩, ⟨none, 1⟩])
      ⟨0⟩).2.2.1 (by decide)

/-! ## C2: weak-pointer round trip -/

/-- C2: resolving a weak pointer assigned from a non-null object `x` that
currently occupies a live slot yields `x` back; resolving a pointer whose
slot serial no longer matches yields "no object"; and assigning from a null
object writes the sentinel so that resolution yields "no object". -/
theorem weak_object_round_trip (h : unrealsdk.Host) (g : unrealsdk.GObjects) :
    (∀ (x : unrealsdk.UObjectRef)
        (hidx : x.internalIndex < (h g.internal).length),
      ((h g.internal).get ⟨x.internalIndex, hidx⟩).object = some x →
        unrealsdk.GObjects.get_weak_object h g
          (unrealsdk.GObjects.set_weak_object h g (some x)) = some x)
    ∧ (∀ (ptr : unrealsdk.FWeakObjectPtr)
          (_hpos : 0 ≤ ptr.object_index)
          (hidx : ptr.object_index.toNat < (h g.internal).length),
        ((h g.internal).get ⟨ptr.object_index.toNat, hidx⟩).serial ≠
            ptr.object_serial →
          unrealsdk.GObjects.get_weak_object h g ptr = none)
    ∧ unrealsdk.GObjects.get_weak_object h g
        (unrealsdk.GObjects.set_weak_object h g none) = none := by
  refine ⟨fun x hidx hlive => ?_, fun ptr _hpos hidx hser => ?_, ?_⟩
  · simp only [unrealsdk.GObjects.set_weak_object,
      List.getElem?_eq_getElem hidx, unrealsdk.GObjects.get_weak_object]
    rw [if_neg (by omega)]
    have htn : (((x.internalIndex : Int)).toNat) = x.internalIndex :=
      Int.toNat_natCast x.internalIndex
    simp only [htn, List.getElem?_eq_getElem hidx, if_pos rfl]
    rw [← hlive]
    rfl
  · simp only [unrealsdk.GObjects.get_weak_object]
    rw [if_neg (by omega), List.getElem?_eq_getElem hidx]
    simp only [if_neg (by simpa using hser)]
  · rfl

/-- Witness for C2: in a one-slot registry holding object 7 with serial 3,
assigning then resolving recovers the object, and a stale pointer at that
slot with serial 4 resolves to "no object". -/
theorem weak_object_round_trip_witness :
    unrealsdk.GObjects.get_weak_object (fun _ => [⟨some ⟨7, 0⟩, 3⟩]) ⟨0⟩
        (unrealsdk.GObjects.set_weak_object (fun _ => [⟨some ⟨7, 0⟩, 3⟩]) ⟨0⟩
          (some ⟨7, 0⟩)) = some ⟨7, 0⟩
    ∧ unrealsdk.GObjects.get_weak_object (fun _ => [⟨some ⟨7, 0⟩, 3⟩]) ⟨0⟩
        ⟨0, 4⟩ = none :=
  ⟨(weak_object_round_trip (fun _ => [⟨some ⟨7, 0⟩, 3⟩]) ⟨0⟩).1 ⟨7, 0⟩
      (by decide) (by decide),
    (weak_object_round_trip (fun _ => [⟨some ⟨7, 0⟩, 3⟩]) ⟨0⟩).2.1 ⟨0, 4⟩
      (by decide) (by decide) (by decide)⟩

/-! ## C8: out-of-range weak resolution is a miss, not an error -/

/-- C8: a weak pointer whose index lies at or past the registry's current
logical range resolves to "no object" rather than an error, while `obj_at`
on the same index fails with the out-of-range error. -/
theorem weak_out_of_range_is_none (h : unrealsdk.Host) (g : unrealsdk.GObjects)
    (idx : Nat) (serial : Nat) (hout : unrealsdk.GObjects.size h g ≤ idx) :
    unrealsdk.GObjects.get_weak_object h g ⟨(idx : Int), serial⟩ = none
    ∧ (unrealsdk.GObjects.obj_at h g idx).isOk = false := by
  constructor
  · simp only [unrealsdk.GObjects.get_weak_object]
    rw [if_neg (by omega)]
    have hnone : (h g.internal)[(((idx : Int)).toNat)]? = none := by
      rw [Int.toNat_natCast]
      exact List.getElem?_eq_none hout
    rw [hnone]
  · have hout2 : (h g.internal).length ≤ idx := hout
    simp only [unrealsdk.GObjects.obj_at]
    rw [dif_neg (Nat.not_lt.mpr hout2)]
    rfl

/-- Witness for C8: resolving index 2 against a one-slot registry yields
"no object" while obj_at 2 is an error. -/
theorem weak_out_of_range_is_none_witness :
    unrealsdk.GObjects.get_weak_object (fun _ => [⟨some ⟨7, 0⟩, 3⟩]) ⟨0⟩
        ⟨2, 9⟩ = none
    ∧ (unrealsdk.GObjects.obj_at (fun _ => [⟨some ⟨7, 0⟩, 3⟩]) ⟨0⟩ 2).isOk =
        false :=
  weak_out_of_range_is_none (fun _ => [⟨some ⟨7, 0⟩, 3⟩]) ⟨0⟩ 2 9 (by decide)

/-! ## C3/C4: the initialization gate -/

/-- A first `init` call that returns true left the factory's hook published. -/
theorem init_ok_true {Hook : Type} (env : unrealsdk.InitEnv Hook)
    (st1 : unrealsdk.SdkState Hook)
    (h : unrealsdk.init env ⟨none⟩ = (st1, unrealsdk.CallResult.ok true)) :
    st1 = ⟨some (env.game_getter ())⟩ := by
  simp only [unrealsdk.init] at h
  split at h
  · simp at h
  · split at h
    · simp at h
    · split at h
      · simp at h
      · split at h
        · simp at h
        · split at h
          · simp at h
          · exact (Prod.ext_iff.mp h).1.symm

/-- C3: when a first `init` call succeeded (returned true), a second `init`
call — with the same or a different environment and factory — returns false,
performs no re-initialization (the state is returned unchanged), and the
originally bound hook is still the one the first factory produced. -/
theorem init_twice {Hook : Type} (env1 env2 : unrealsdk.InitEnv Hook)
    (st1 : unrealsdk.SdkState Hook)
    (hfirst : unrealsdk.init env1 ⟨none⟩ =
      (st1, unrealsdk.CallResult.ok true)) :
    unrealsdk.init env2 st1 = (st1, unrealsdk.CallResult.ok false)
    ∧ st1.hook_instance = some (env1.game_getter ()) := by
  have h1 := init_ok_true env1 st1 hfirst
  subst h1
  exact ⟨rfl, rfl⟩

/-- Witness for C3 at `Hook := Nat`: a successful first call binding hook 42,
then a second call with a different factory returning false and leaving 42. -/
theorem init_twice_witness :
    unrealsdk.init ⟨true, true, true, fun _ => 99, fun _ => true, fun _ => true⟩
        (⟨some 42⟩ : unrealsdk.SdkState Nat) =
      (⟨some 42⟩, unrealsdk.CallResult.ok false)
    ∧ (⟨some 42⟩ : unrealsdk.SdkState Nat).hook_instance = some 42 :=
  init_twice ⟨true, true, true, fun _ => 42, fun _ => true, fun _ => true⟩
    ⟨true, true, true, fun _ => 99, fun _ => true, fun _ => true⟩
    ⟨some 42⟩ rfl

/-- C4: starting from the unpublished state, `is_initialized` can report true
only when every step up to and including hook installation succeeded; and if
config loading, logging setup, `MH_Initialize` or `game->hook()` fails (throws
before publication), the published hook stays null and `is_initialized` still
reports false. -/
theorem publish_only_after_install {Hook : Type} (env : unrealsdk.InitEnv Hook) :
    (unrealsdk.is_initialized (unrealsdk.init env ⟨none⟩).1 = true →
      env.config_ok = true ∧ env.logging_ok = true ∧ env.mh_ok = true
      ∧ env.hook_ok (env.game_getter ()) = true)
    ∧ ((env.config_ok = false ∨ env.logging_ok = false ∨ env.mh_ok = false
          ∨ env.hook_ok (env.game_getter ()) = false) →
        (unrealsdk.init env ⟨none⟩).1.hook_instance = none
        ∧ unrealsdk.is_initialized (unrealsdk.init env ⟨none⟩).1 = false) := by
  cases hc : env.config_ok <;> cases hl : env.logging_ok <;>
    cases hm : env.mh_ok <;> cases hh : env.hook_ok (env.game_getter ()) <;>
    cases hp : env.post_init_ok (env.game_getter ()) <;>
    simp [unrealsdk.init, unrealsdk.is_initialized, hc, hl, hm, hh, hp]

/-- Witness for C4 at `Hook := Nat`: with `MH_Initialize` failing, the hook
is never published and `is_initialized` stays false. -/
theorem publish_only_after_install_witness :
    (unrealsdk.init
        ⟨true, true, false, fun _ => 42, fun _ => true, fun _ => true⟩
        (⟨none⟩ : unrealsdk.SdkState Nat)).1.hook_instance = none
    ∧ unrealsdk.is_initialized
        (unrealsdk.init
          ⟨true, true, false, fun _ => 42, fun _ => true, fun _ => true⟩
          (⟨none⟩ : unrealsdk.SdkState Nat)).1 = false :=
  (publish_only_after_install
      ⟨true, true, false, fun _ => 42, fun _ => true, fun _ => true⟩).2
    (Or.inr (Or.inr (Or.inl rfl)))

/-! ## C9: the console surface is inert before init -/

/-- C9: before `init` has published a hook, `is_console_ready` returns false
without dereferencing the unpublished hook (no crash), and
`uconsole_output_text` is a silent no-op: the hook's output log is unchanged. -/
theorem console_inert_before_init {Hook : Type} (cr : Hook → Bool)
    (str : String) (log : List String) :
    unrealsdk.is_console_ready cr (⟨none⟩ : unrealsdk.SdkState Hook) =
      some false
    ∧ unrealsdk.uconsole_output_text (⟨none⟩ : unrealsdk.SdkState Hook) str log
      = log :=
  ⟨rfl, rfl⟩

/-! ## C10: construct_object name-pointer handling -/

/-- C10: with a hook bound, the C-surface `construct_object` forwards a null
name pointer as the default name {index 0, number 0} without failing, and
forwards a non-null name unchanged, together with the other arguments. -/
theorem construct_object_name_default {Hook : Type}
    (st : unrealsdk.SdkState Hook) (hk : Hook)
    (hbound : st.hook_instance = some hk)
    (cls outer flags template_obj : Nat) :
    unrealsdk.construct_object st cls outer none flags template_obj =
      some ⟨cls, outer, ⟨0, 0⟩, flags, template_obj⟩
    ∧ ∀ n : unrealsdk.FName,
      unrealsdk.construct_object st cls outer (some n) flags template_obj =
        some ⟨cls, outer, n, flags, template_obj⟩ := by
  refine ⟨?_, fun n => ?_⟩ <;>
    simp [unrealsdk.construct_object, hbound]

/-- Witness for C10 at `Hook := Nat` with hook 42 bound: a null name pointer
is forwarded as {0, 0}, and the name ⟨5, 6⟩ is forwarded unchanged. -/
theorem construct_object_name_default_witness :
    unrealsdk.construct_object (⟨some 42⟩ : unrealsdk.SdkState Nat)
        1 2 none 3 4 = some ⟨1, 2, ⟨0, 0⟩, 3, 4⟩
    ∧ unrealsdk.construct_object (⟨some 42⟩ : unrealsdk.SdkState Nat)
        1 2 (some ⟨5, 6⟩) 3 4 = some ⟨1, 2, ⟨5, 6⟩, 3, 4⟩ :=
  ⟨(construct_object_name_default ⟨some 42⟩ 42 rfl 1 2 3 4).1,
    (construct_object_name_default ⟨some 42⟩ 42 rfl 1 2 3 4).2 ⟨5, 6⟩⟩

/-! ## C6: the inheritance chain of the layout descriptors -/

/-- C6 counterexample: the claim's chain has struct extending property, but in
game/bl3/offsets.h `UStruct : public UField` — its base is the field level,
not the property level — and accordingly UProperty's layout (which starts
UObject/UField members then `ArrayDim` …) is not an initial segment of
UStruct's layout (which continues with `SuperField` …). -/
theorem struct_does_not_extend_property :
    unrealsdk.game.bl3.Entity.base unrealsdk.game.bl3.Entity.ustruct ≠
      some unrealsdk.game.bl3.Entity.uproperty
    ∧ (unrealsdk.game.bl3.Entity.layout unrealsdk.game.bl3.Entity.ustruct).take
        (unrealsdk.game.bl3.Entity.layout
          unrealsdk.game.bl3.Entity.uproperty).length ≠
      unrealsdk.game.bl3.Entity.layout unrealsdk.game.bl3.Entity.uproperty :=
  by decide

/-- C6 (amended): the reflection mirrors form a fixed single-inheritance
hierarchy in which field extends base object, property and struct each extend
field (they are siblings), and class and function each extend struct; every
derived level's layout is its base level's layout followed by its own
members. -/
theorem layout_chain :
    (∀ e p : unrealsdk.game.bl3.Entity,
      unrealsdk.game.bl3.Entity.base e = some p →
        unrealsdk.game.bl3.Entity.layout e =
          unrealsdk.game.bl3.Entity.layout p ++
            unrealsdk.game.bl3.Entity.own_fields e)
    ∧ unrealsdk.game.bl3.Entity.base unrealsdk.game.bl3.Entity.ufield =
        some unrealsdk.game.bl3.Entity.uobject
    ∧ unrealsdk.game.bl3.Entity.base unrealsdk.game.bl3.Entity.uproperty =
        some unrealsdk.game.bl3.Entity.ufield
    ∧ unrealsdk.game.bl3.Entity.base unrealsdk.game.bl3.Entity.ustruct =
        some unrealsdk.game.bl3.Entity.ufield
    ∧ unrealsdk.game.bl3.Entity.base unrealsdk.game.bl3.Entity.uclass =
        some unrealsdk.game.bl3.Entity.ustruct
    ∧ unrealsdk.game.bl3.Entity.base unrealsdk.game.bl3.Entity.ufunction =
        some unrealsdk.game.bl3.Entity.ustruct := by
  refine ⟨fun e p hep => ?_, rfl, rfl, rfl, rfl, rfl⟩
  cases e <;> cases p <;> revert hep <;> decide

/-- Witness for the amended C6 at the class level: UClass's layout is
UStruct's layout followed by UClass's own members. -/
theorem layout_chain_witness :
    unrealsdk.game.bl3.Entity.layout unrealsdk.game.bl3.Entity.uclass =
      unrealsdk.game.bl3.Entity.layout unrealsdk.game.bl3.Entity.ustruct ++
        unrealsdk.game.bl3.Entity.own_fields unrealsdk.game.bl3.Entity.uclass :=
  layout_chain.1 unrealsdk.game.bl3.Entity.uclass
    unrealsdk.game.bl3.Entity.ustruct rfl
